import Mathlib

/-!
Verification of the FGCU driving-simulator trial harness
(`carla_project/ReseachCode/manual_control_steeringwheel_Research_Base.py`).

The development shallowly embeds the two algorithmic cores of the program:

* the input-to-actuation mapper (`DualControl._parse_vehicle_keys`,
  `DualControl._parse_vehicle_wheel`, the per-tick tail of
  `DualControl.parse_events`), and
* the trial state machine with violation and telemetry tracking
  (`TrialManager.track_speed`, `initiate_trial`, `end_trial`,
  `calculate_results`, `handle_event`, and the trial-key block of
  `game_loop`).

Python floats are idealised as exact rationals (ℚ) for the state machine and
digital controls, and as real numbers (ℝ) for the transcendental response
curves (`tan`, `log10`).  `time.time()` is threaded through as an explicit
`now` argument; the several reads of the clock inside a single call are
idealised as one instant per tick.  Random code generation
(`TrialManager.generate_code`) is threaded through as an explicit fresh-code
argument.  CSV writes are modelled as append-only lists carried in the state;
string formatting of rows is abstracted to the numeric payload.
-/

/-! ## Rounding

The Python round function rounds half to even (bankers rounding).  We model it
exactly on rationals. -/

/-- Round a rational to the nearest integer, ties to even
(the Python round builtin on a float, idealised over ℚ). -/
def roundHalfEven (q : ℚ) : ℤ :=
  let f := ⌊q⌋
  let r := q - f
  if r < 1/2 then f
  else if 1/2 < r then f + 1
  else if f % 2 = 0 then f else f + 1

/-- Python `round(q, ndigits)` for `ndigits ≥ 0`, idealised over ℚ. -/
def pyRound (ndigits : ℕ) (q : ℚ) : ℚ :=
  (roundHalfEven (q * 10 ^ ndigits) : ℚ) / 10 ^ ndigits

/-- Python `int(q)`: truncation toward zero. -/
def pyInt (q : ℚ) : ℤ :=
  q.num / (q.den : ℤ)

/-- Python `min(a, b)` on numbers (first argument on ties). -/
def pymin (a b : ℚ) : ℚ := if a ≤ b then a else b

/-- Python `max(a, b)` on numbers (first argument on ties). -/
def pymax (a b : ℚ) : ℚ := if b ≤ a then a else b

/-! ## Control mapper (`DualControl`)

`carla.VehicleControl` restricted to the fields the mapper touches.  The
scalar type is a parameter: ℚ for the digital (keyboard) path, ℝ for the
analog (wheel) path, both idealising Python floats. -/

structure VehicleControl (α : Type) where
  steer : α
  throttle : α
  brake : α
  gear : ℤ
  hand_brake : Bool
  reverse : Bool
  manual_gear_shift : Bool
deriving DecidableEq

/-- The pressed-key set read by `_parse_vehicle_keys`
(`pygame.key.get_pressed()` restricted to the keys it consults). -/
structure Keys where
  up : Bool
  w : Bool
  left : Bool
  a : Bool
  right : Bool
  d : Bool
  down : Bool
  s : Bool
  space : Bool
deriving DecidableEq

/-- Models `DualControl._parse_vehicle_keys(keys, milliseconds)` (digital fallback).
Returns the new `_steer_cache` together with the updated control. -/
def parse_vehicle_keys (keys : Keys) (milliseconds : ℚ) (steer_cache : ℚ)
    (c : VehicleControl ℚ) : ℚ × VehicleControl ℚ :=
  let throttle : ℚ := if keys.up || keys.w then 1 else 0
  let steer_increment : ℚ := 5/10000 * milliseconds
  let cache1 : ℚ :=
    if keys.left || keys.a then steer_cache - steer_increment
    else if keys.right || keys.d then steer_cache + steer_increment
    else 0
  let cache2 : ℚ := pymin (7/10) (pymax (-(7/10)) cache1)
  let brake : ℚ := if keys.down || keys.s then 1 else 0
  (cache2,
    { c with
      throttle := throttle
      steer := pyRound 1 cache2
      brake := brake
      hand_brake := keys.space })

/-- Steering response curve used in `_parse_vehicle_wheel`:
`steering_damping * tan(1.1 * raw)` (not reclamped). -/
noncomputable def steer_curve (damping raw : ℝ) : ℝ :=
  damping * Real.tan (1.1 * raw)

/-- Throttle/brake response curve used in `_parse_vehicle_wheel`:
`damping * (1.6 + (2.05*log10(-0.7*raw + 1.4) - 1.2)/0.92)` (before clamping). -/
noncomputable def pedal_curve (damping raw : ℝ) : ℝ :=
  damping * (1.6 + (2.05 * Real.logb 10 (-0.7 * raw + 1.4) - 1.2) / 0.92)

/-- The final clamp `max(0, min(1, cmd))` applied to throttle and brake. -/
def clamp01 (x : ℝ) : ℝ := max 0 (min 1 x)

/-- Models `DualControl._parse_vehicle_wheel()` (analog mode).  The three axis
indices come from `axis_mapping`; when any of them is unconfigured (`None`)
the guard fails and the control is left unchanged.  `jsInputs` is the list of
raw joystick axis readings. -/
noncomputable def parse_vehicle_wheel (steering_damping throttle_damping brake_damping : ℝ)
    (steering_axis throttle_axis brake_axis : Option ℕ) (jsInputs : ℕ → ℝ)
    (c : VehicleControl ℝ) : VehicleControl ℝ :=
  match steering_axis, throttle_axis, brake_axis with
  | some i, some j, some k =>
    let steerCmd := steer_curve steering_damping (jsInputs i)
    let throttleCmd := clamp01 (pedal_curve throttle_damping (jsInputs j))
    let brakeCmd := clamp01 (pedal_curve brake_damping (jsInputs k))
    { c with steer := steerCmd, brake := brakeCmd, throttle := throttleCmd }
  | _, _, _ => c

/-- The vehicle-light side channel set by `update_vehicle_lights` plus the
high-beam bit toggled by the `K_l` press handler
(`_toggle_vehicle_lights`). -/
structure LightState where
  brake_light : Bool
  reverse_light : Bool
  highbeam : Bool
deriving DecidableEq

/-- Models `DualControl.update_vehicle_lights(world)`: brake and reverse lights are
recomputed from the control; the high-beam toggle is untouched. -/
def update_vehicle_lights (c : VehicleControl ℚ) (l : LightState) : LightState :=
  { l with
    brake_light := decide (c.brake > 0)
    reverse_light := decide (c.gear < 0) }

/-- The per-tick polled tail of `DualControl.parse_events` in keyboard
(digital) mode: `_parse_vehicle_keys`, then `reverse = gear < 0`, then
`update_vehicle_lights`.  Returns (new steer cache, control, lights). -/
def per_tick_digital (keys : Keys) (milliseconds steer_cache : ℚ)
    (c : VehicleControl ℚ) (l : LightState) : ℚ × VehicleControl ℚ × LightState :=
  let r := parse_vehicle_keys keys milliseconds steer_cache c
  let c2 := { r.2 with reverse := decide (r.2.gear < 0) }
  (r.1, c2, update_vehicle_lights c2 l)

/-! ## Trial state machine (`TrialManager`)

The Python class keeps its lifecycle implicitly in three booleans:
`start_screen` (Armed), `trial_active` (Running) and `display_results`
(Finished); Idle is all three false. -/

/-- A vehicle location (`carla.Location`). -/
structure Loc where
  x : ℚ
  y : ℚ
  z : ℚ
deriving DecidableEq

/-- A vehicle attitude (`carla.Rotation`). -/
structure Rot where
  pitch : ℚ
  yaw : ℚ
  roll : ℚ
deriving DecidableEq

/-- Models `TrialManager.calculate_heading_cardinal(yaw)`. -/
def calculate_heading_cardinal (yaw : ℚ) : String :=
  if |yaw| < 45 then "N"
  else if 45 ≤ yaw ∧ yaw < 135 then "E"
  else if |yaw| ≥ 135 then "S"
  else "W"

/-- One row of the per-tick run stream appended to `data_to_write` in
`track_speed` (numeric payload of the CSV row). -/
structure RunRow where
  user_name : String
  session_code : String
  trial_code : Option String
  timestamp : ℤ
  elapsed : ℚ
  speed : ℚ
  loc : Loc
  rot : Rot
  heading_degrees : ℚ
  heading_cardinal : String
  vehicle : String
deriving DecidableEq

/-- One row of the event stream written by `record_event`. -/
structure EventRow where
  session_code : String
  trial_code : Option String
  timestamp : ℤ
  event_type : String
  violation_duration : ℚ
  loc : Loc
  rot : Rot
deriving DecidableEq

/-- The `trial_results` dict produced by `calculate_results`. -/
structure TrialResults where
  trial_duration : ℚ
  avg_speed : ℚ
  avg_violation_duration : ℚ
  violation_count : ℕ
deriving DecidableEq

/-- One row of the totals stream written by `write_totals_to_csv`
(numeric payload; `format_time` and the `.2f` textual formatting are
abstracted to the rounded rational values they print).  `min_speed` is
`none` when the run never recorded a speed (the Python float infinity). -/
structure TotalsRow where
  user_name : String
  session_code : String
  trial_code : Option String
  trial_start : ℚ
  trial_duration : ℚ
  avg_speed : ℚ
  max_speed : ℚ
  min_speed : Option ℚ
  violation_count : ℕ
  avg_violation_duration : ℚ
  vehicle : String
  weather : String
deriving DecidableEq

/-- The mutable state of a `TrialManager`.  `min_speed_during_run = none`
stands for the Python float-infinity initial value; `start_time`/`end_time`
are initialised to 0 instead of `None` (they are only read after being
set).  The three CSV streams are carried as append-only lists. -/
structure TMState where
  trial_active : Bool
  start_time : ℚ
  end_time : ℚ
  violation_start : Option ℚ
  violation_durations : List (ℚ × ℚ)
  violation_count : ℕ
  max_speed : ℚ
  trial_results : Option TrialResults
  display_results : Bool
  start_screen : Bool
  current_speed : ℚ
  speeding_warning : Bool
  max_speed_during_run : ℚ
  min_speed_during_run : Option ℚ
  session_code : String
  trial_code : Option String
  user_name : String
  new_user_name : String
  user_names : List String
  active_input : Bool
  dropdown_open : Bool
  selected_name_index : ℤ
  data_to_write : List RunRow
  written_runs : List RunRow
  events_rows : List EventRow
  totals_rows : List TotalsRow
  vehicle_type : String
  weather_preset : String
deriving DecidableEq

/-- Models `min(self.min_speed_during_run, speed)` where the accumulator starts at
float infinity (modelled as `none`). -/
def minW : Option ℚ → ℚ → Option ℚ
  | none, speed => some speed
  | some m, speed => some (pymin m speed)

/-- The state set up by `TrialManager.__init__` (host handles, config
parsing and file opening abstracted away; the speed limit comes from
the speed_limit trial setting, default 45.0). -/
def init_state (session_code : String) (speed_limit : ℚ)
    (vehicle weather : String) (user_names : List String) : TMState :=
  { trial_active := false
    start_time := 0
    end_time := 0
    violation_start := none
    violation_durations := []
    violation_count := 0
    max_speed := speed_limit
    trial_results := none
    display_results := false
    start_screen := false
    current_speed := 0
    speeding_warning := false
    max_speed_during_run := 0
    min_speed_during_run := none
    session_code := session_code
    trial_code := none
    user_name := (user_names.getLast?).getD ""
    new_user_name := ""
    user_names := user_names
    active_input := false
    dropdown_open := false
    selected_name_index := (user_names.length : ℤ) - 1
    data_to_write := []
    written_runs := []
    events_rows := []
    totals_rows := []
    vehicle_type := vehicle
    weather_preset := weather }

/-- Models `TrialManager.start_trial(player)` ("arm"): shows the start screen and
deactivates any running trial.  The notification and the teleport to the
configured start pose are host-side effects. -/
def start_trial (s : TMState) : TMState :=
  { s with start_screen := true, trial_active := false }

/-- Models `TrialManager.initiate_trial()` ("start"), at wall-clock `now`, with the
fresh random code produced by `generate_code()`. -/
def initiate_trial (now : ℚ) (fresh_code : String) (s : TMState) : TMState :=
  { s with
    trial_active := true
    start_time := now
    violation_start := none
    violation_durations := []
    violation_count := 0
    display_results := false
    start_screen := false
    speeding_warning := false
    max_speed_during_run := 0
    min_speed_during_run := none
    trial_code := some fresh_code }

/-- The run-stream row built inside `track_speed` when the 0.5 s sampling
clock fires. -/
def run_row (s : TMState) (now speed : ℚ) (loc : Loc) (rot : Rot) : RunRow :=
  { user_name := s.user_name
    session_code := s.session_code
    trial_code := s.trial_code
    timestamp := pyInt now
    elapsed := pyRound 2 (now - s.start_time)
    speed := speed
    loc := loc
    rot := rot
    heading_degrees := rot.yaw
    heading_cardinal := calculate_heading_cardinal rot.yaw
    vehicle := s.vehicle_type }

/-- The event-stream row written by `TrialManager.record_event`. -/
def event_row (s : TMState) (event_type : String) (violation_duration now : ℚ)
    (loc : Loc) (rot : Rot) : EventRow :=
  { session_code := s.session_code
    trial_code := s.trial_code
    timestamp := pyInt now
    event_type := event_type
    violation_duration := violation_duration
    loc := loc
    rot := rot }

/-- The violation edge-detector inside `track_speed`: on `speed > max_speed`
open a window if none is open (incrementing `violation_count`); otherwise
close an open window, appending `(duration, speed)` to `violation_durations`
and emitting an event row. -/
def violation_step (now speed : ℚ) (loc : Loc) (rot : Rot) (s : TMState) : TMState :=
  if s.max_speed < speed then
    if s.violation_start = none then
      { s with
        violation_start := some now
        violation_count := s.violation_count + 1
        speeding_warning := true }
    else
      { s with speeding_warning := true }
  else
    match s.violation_start with
    | some vstart =>
      let violation_duration := now - vstart
      { s with
        violation_durations := s.violation_durations ++ [(violation_duration, speed)]
        events_rows := s.events_rows ++ [event_row s "violation" violation_duration now loc rot]
        violation_start := none
        speeding_warning := false }
    | none => { s with speeding_warning := false }

/-- The 0.5 s sampling clock inside `track_speed`: buffer a telemetry row
whenever `time.time() - start_time >= len(data_to_write) * 0.5`. -/
def telemetry_step (now speed : ℚ) (loc : Loc) (rot : Rot) (s : TMState) : TMState :=
  if (s.data_to_write.length : ℚ) * (1/2) ≤ now - s.start_time then
    { s with data_to_write := s.data_to_write ++ [run_row s now speed loc rot] }
  else s

/-- Models `TrialManager.track_speed(speed, player)` at wall-clock `now`, with the
pose of the player passed explicitly.  Mirrors the source: outside a trial only
`current_speed` is updated; during a trial the max/min trackers advance,
then the violation edge-detector runs, then the sampling clock. -/
def track_speed (now speed : ℚ) (loc : Loc) (rot : Rot) (s : TMState) : TMState :=
  if s.trial_active then
    telemetry_step now speed loc rot
      (violation_step now speed loc rot
        { s with
          current_speed := speed
          max_speed_during_run := pymax s.max_speed_during_run speed
          min_speed_during_run := minW s.min_speed_during_run speed })
  else { s with current_speed := speed }

/-- Models `TrialManager.calculate_results()`: the guarded averages over the
violation list (`sum/len if self.violation_durations else 0`). -/
def calculate_results (s : TMState) : TMState :=
  let trial_duration := s.end_time - s.start_time
  let avg_speed : ℚ :=
    if s.violation_durations.isEmpty then 0
    else (s.violation_durations.map Prod.snd).sum / (s.violation_durations.length : ℚ)
  let avg_violation_duration : ℚ :=
    if s.violation_durations.isEmpty then 0
    else (s.violation_durations.map Prod.fst).sum / (s.violation_durations.length : ℚ)
  { s with
    trial_results := some
      { trial_duration := trial_duration
        avg_speed := avg_speed
        avg_violation_duration := avg_violation_duration
        violation_count := s.violation_count } }

/-- The totals-stream row written by `write_totals_to_csv` (numeric
payload of the CSV row; `round(x, 2)` per the source). -/
def totals_row (s : TMState) (r : TrialResults) : TotalsRow :=
  { user_name := s.user_name
    session_code := s.session_code
    trial_code := s.trial_code
    trial_start := s.start_time
    trial_duration := r.trial_duration
    avg_speed := pyRound 2 r.avg_speed
    max_speed := pyRound 2 s.max_speed_during_run
    min_speed := s.min_speed_during_run.map (pyRound 2)
    violation_count := r.violation_count
    avg_violation_duration := pyRound 2 r.avg_violation_duration
    vehicle := s.vehicle_type
    weather := s.weather_preset }

/-- Models `TrialManager.end_trial()` at wall-clock `now`: deactivate, stamp
`end_time`, compute results, show them, flush the buffered run rows in one
batch, and append the totals row.  Note it does not touch
`violation_start`. -/
def end_trial (now : ℚ) (s : TMState) : TMState :=
  let s1 := calculate_results { s with trial_active := false, end_time := now }
  let s2 := { s1 with
    display_results := true
    written_runs := s1.written_runs ++ s1.data_to_write
    data_to_write := [] }
  match s2.trial_results with
  | some r => { s2 with totals_rows := s2.totals_rows ++ [totals_row s2 r] }
  | none => s2

/-- Models `TrialManager.save_user_name(name)`: append the name if new, select
it (the file write is the `user_names` list itself). -/
def save_user_name (name : String) (s : TMState) : TMState :=
  let names :=
    if name ≠ "" ∧ name ∉ s.user_names then s.user_names ++ [name]
    else s.user_names
  { s with
    user_names := names
    user_name := name
    selected_name_index := (names.indexOf name : ℤ) }

/-- The keydown alphabet relevant to `TrialManager.handle_event`:
Return, Space, Backspace, or any other key carrying its `event.unicode`
text.  (The `K_DOWN`/`K_UP` dropdown-cycling keys are outside this
alphabet.) -/
inductive Key where
  | enter
  | space
  | backspace
  | other (unicode : String)
deriving DecidableEq

/-- The trailing `if event.type == pygame.KEYDOWN` block of
`handle_event`: text entry into the user-name box when `active_input`
is set; otherwise (for these keys) nothing. -/
def handle_text_input (k : Key) (s : TMState) : TMState :=
  if s.active_input then
    match k with
    | .enter =>
      let s1 :=
        if s.new_user_name.trim ≠ "" then
          { save_user_name s.new_user_name s with new_user_name := "" }
        else s
      { s1 with active_input := false }
    | .backspace => { s with new_user_name := s.new_user_name.dropRight 1 }
    | .space => { s with new_user_name := s.new_user_name ++ " " }
    | .other u => { s with new_user_name := s.new_user_name ++ u }
  else s

/-- The `pygame.KEYDOWN` path of `TrialManager.handle_event(event)`.
Return while the results screen is up dismisses it and returns early;
Return on the start screen starts the trial; Space during a trial ends it;
then control falls through to the text-input block. -/
def handle_event_keydown (now : ℚ) (fresh_code : String) (k : Key)
    (s : TMState) : TMState :=
  match k with
  | .enter =>
    if s.display_results then { s with display_results := false }
    else
      let s1 := if s.start_screen then initiate_trial now fresh_code s else s
      handle_text_input .enter s1
  | .space =>
    let s1 := if s.trial_active then end_trial now s else s
    handle_text_input .space s1
  | k => handle_text_input k s

/-- The held-key trial block of `game_loop` (lines 1346-1355): numpad-1
arms, Return on the start screen starts, Space during a trial ends, Return
on the results screen re-arms. -/
def game_loop_trial_keys (kp1 enter space : Bool) (now : ℚ) (fresh_code : String)
    (s : TMState) : TMState :=
  let s1 := if kp1 then start_trial s else s
  let s2 := if enter && s1.start_screen then initiate_trial now fresh_code s1 else s1
  let s3 := if space && s2.trial_active then end_trial now s2 else s2
  if enter && s3.display_results then start_trial s3 else s3

/-- The input of one simulation tick to `track_speed`. -/
structure Tick where
  now : ℚ
  speed : ℚ
  loc : Loc
  rot : Rot
deriving DecidableEq

/-- A sequence of `track_speed` ticks. -/
def run_ticks (ticks : List Tick) (s : TMState) : TMState :=
  ticks.foldl (fun st t => track_speed t.now t.speed t.loc t.rot st) s

/-- A complete trial execution: arm (`start_trial`), start
(`initiate_trial` at `t0`), a sequence of ticks, then `end_trial` at `te`. -/
def run_trial (t0 : ℚ) (fresh_code : String) (ticks : List Tick) (te : ℚ)
    (s : TMState) : TMState :=
  end_trial te (run_ticks ticks (initiate_trial t0 fresh_code (start_trial s)))

/-- Number of open violation windows held in the state (0 or 1). -/
def windowOpen (s : TMState) : ℕ :=
  match s.violation_start with
  | none => 0
  | some _ => 1

/-- Equality of the trial-lifecycle fields named by the specification
invalid-transition discussion: activity flag, start time, trial code,
violation counters and buffered telemetry. -/
abbrev TrialFieldsEq (a b : TMState) : Prop :=
  a.trial_active = b.trial_active ∧ a.start_time = b.start_time ∧
  a.trial_code = b.trial_code ∧ a.violation_count = b.violation_count ∧
  a.violation_durations = b.violation_durations ∧
  a.violation_start = b.violation_start ∧ a.data_to_write = b.data_to_write

/-! ## Concrete scenario inputs -/

/-- Pressed-key set holding only the left-turn arrow key. -/
def keys_left_only : Keys := ⟨false, false, true, false, false, false, false, false, false⟩

/-- Pressed-key set with no key held. -/
def keys_none : Keys := ⟨false, false, false, false, false, false, false, false, false⟩

/-- A fresh `carla.VehicleControl()` (all-zero control, forward gear 0). -/
def vc0 : VehicleControl ℚ := ⟨0, 0, 0, 0, false, false, false⟩

/-- A control whose hand brake has just been toggled on by a press event
(reverse gear also engaged to make the gear toggle observable). -/
def vc_handbrake : VehicleControl ℚ := ⟨0, 0, 0, 1, true, false, false⟩

/-- All vehicle lights off. -/
def lights0 : LightState := ⟨false, false, false⟩

/-- A fresh session with the default 45 mph speed limit. -/
def base_state : TMState := init_state "S" 45 "car" "Clear" []

/-- A running trial (started at time 0) with a violation window opened at
time 0. -/
def running_open_state : TMState :=
  { base_state with trial_active := true, violation_start := some 0 }

/-- The Finished state: the results screen of a finished trial is up. -/
def finished_state : TMState := { base_state with display_results := true }

/-- A trial started at time 0 with a single tick at time 1 doing 100 mph
(above the 45 mph limit, so a window opens) and `end_trial` at time 2 while
that window is still open. -/
def cex_trial : TMState :=
  run_trial 0 "T" [⟨1, 100, ⟨0, 0, 0⟩, ⟨0, 0, 0⟩⟩] 2 base_state

/-- A trial started at time 0 whose speed exceeds the limit at time 1
(50 mph) and drops back to 40 mph at time 2, closing the window; ended at
time 3. -/
def closed_window_trial : TMState :=
  run_trial 0 "T" [⟨1, 50, ⟨0, 0, 0⟩, ⟨0, 0, 0⟩⟩, ⟨2, 40, ⟨0, 0, 0⟩, ⟨0, 0, 0⟩⟩] 3 base_state

/-! ## Helper lemmas -/

theorem le_pymin {a b c : ℚ} (h1 : c ≤ a) (h2 : c ≤ b) : c ≤ pymin a b := by
  unfold pymin
  split_ifs <;> assumption

theorem pymin_le_left (a b : ℚ) : pymin a b ≤ a := by
  unfold pymin
  split_ifs with h
  · exact le_refl a
  · exact le_of_not_le h

theorem roundHalfEven_le {q : ℚ} {n : ℤ} (h : q ≤ (n : ℚ)) : roundHalfEven q ≤ n := by
  have hf : ⌊q⌋ ≤ n := by simpa using Int.floor_mono h
  have hfq : (⌊q⌋ : ℚ) ≤ q := Int.floor_le q
  unfold roundHalfEven
  dsimp only
  split_ifs with h1 h2 h3
  · exact hf
  · have hlt : (⌊q⌋ : ℚ) < (n : ℚ) - 1/2 := by linarith
    have : ⌊q⌋ < n := by
      by_contra hc
      push_neg at hc
      have : (n : ℚ) ≤ (⌊q⌋ : ℚ) := by exact_mod_cast hc
      linarith
    omega
  · exact hf
  · have hge : (⌊q⌋ : ℚ) + 1/2 ≤ q := by linarith
    have : ⌊q⌋ < n := by
      by_contra hc
      push_neg at hc
      have : (n : ℚ) ≤ (⌊q⌋ : ℚ) := by exact_mod_cast hc
      linarith
    omega

theorem le_roundHalfEven {q : ℚ} {n : ℤ} (h : (n : ℚ) ≤ q) : n ≤ roundHalfEven q := by
  have hf : n ≤ ⌊q⌋ := Int.le_floor.mpr h
  unfold roundHalfEven
  dsimp only
  split_ifs <;> omega

theorem pyRound_one_bound {q : ℚ} (h1 : -(7/10) ≤ q) (h2 : q ≤ 7/10) :
    -(7/10) ≤ pyRound 1 q ∧ pyRound 1 q ≤ 7/10 := by
  have hub : roundHalfEven (q * 10 ^ 1) ≤ (7 : ℤ) := roundHalfEven_le (by push_cast; nlinarith)
  have hlb : (-7 : ℤ) ≤ roundHalfEven (q * 10 ^ 1) := le_roundHalfEven (by push_cast; nlinarith)
  have hub' : (roundHalfEven (q * 10 ^ 1) : ℚ) ≤ 7 := by exact_mod_cast hub
  have hlb' : (-7 : ℚ) ≤ (roundHalfEven (q * 10 ^ 1) : ℚ) := by exact_mod_cast hlb
  unfold pyRound
  constructor
  · rw [le_div_iff₀ (by norm_num : (0:ℚ) < 10 ^ 1)]
    have he : (-(7/10) : ℚ) * 10 ^ 1 = -7 := by norm_num
    rw [he]
    exact hlb'
  · rw [div_le_iff₀ (by norm_num : (0:ℚ) < 10 ^ 1)]
    have he : ((7:ℚ)/10) * 10 ^ 1 = 7 := by norm_num
    rw [he]
    exact hub'

theorem windowOpen_eq_of {a b : TMState} (h : a.violation_start = b.violation_start) :
    windowOpen a = windowOpen b := by
  unfold windowOpen
  rw [h]

theorem telemetry_step_fields (now speed : ℚ) (loc : Loc) (rot : Rot) (s : TMState) :
    (telemetry_step now speed loc rot s).violation_count = s.violation_count ∧
    (telemetry_step now speed loc rot s).violation_start = s.violation_start ∧
    (telemetry_step now speed loc rot s).violation_durations = s.violation_durations ∧
    (telemetry_step now speed loc rot s).max_speed = s.max_speed := by
  unfold telemetry_step
  split_ifs <;> simp

theorem violation_step_window_inv (now speed : ℚ) (loc : Loc) (rot : Rot) (s : TMState)
    (h : s.violation_count = s.violation_durations.length + windowOpen s) :
    (violation_step now speed loc rot s).violation_count =
      (violation_step now speed loc rot s).violation_durations.length +
        windowOpen (violation_step now speed loc rot s) := by
  unfold violation_step windowOpen at *
  rcases hv : s.violation_start with _ | v <;> split_ifs <;> simp_all

theorem track_speed_window_inv (now speed : ℚ) (loc : Loc) (rot : Rot) (s : TMState)
    (h : s.violation_count = s.violation_durations.length + windowOpen s) :
    (track_speed now speed loc rot s).violation_count =
      (track_speed now speed loc rot s).violation_durations.length +
        windowOpen (track_speed now speed loc rot s) := by
  unfold track_speed
  split_ifs with ha
  · set t : TMState := { s with
      current_speed := speed
      max_speed_during_run := pymax s.max_speed_during_run speed
      min_speed_during_run := minW s.min_speed_during_run speed } with ht
    have hbase : t.violation_count = t.violation_durations.length + windowOpen t := by
      simpa [ht, windowOpen] using h
    have h2 := violation_step_window_inv now speed loc rot t hbase
    have h3 := telemetry_step_fields now speed loc rot (violation_step now speed loc rot t)
    rw [h3.1, h3.2.2.1, windowOpen_eq_of h3.2.1]
    exact h2
  · simpa [windowOpen] using h

theorem violation_step_max_speed (now speed : ℚ) (loc : Loc) (rot : Rot) (s : TMState) :
    (violation_step now speed loc rot s).max_speed = s.max_speed := by
  unfold violation_step
  rcases hv : s.violation_start with _ | v <;> split_ifs <;> simp_all

theorem track_speed_max_speed (now speed : ℚ) (loc : Loc) (rot : Rot) (s : TMState) :
    (track_speed now speed loc rot s).max_speed = s.max_speed := by
  unfold track_speed
  split_ifs with ha
  · rw [(telemetry_step_fields now speed loc rot _).2.2.2, violation_step_max_speed]
  · rfl

theorem violation_step_speeds_le (now speed : ℚ) (loc : Loc) (rot : Rot) (s : TMState)
    (h : ∀ p ∈ s.violation_durations, p.2 ≤ s.max_speed) :
    ∀ p ∈ (violation_step now speed loc rot s).violation_durations,
      p.2 ≤ s.max_speed := by
  unfold violation_step
  rcases hv : s.violation_start with _ | v <;> split_ifs with hlt <;> simp_all <;>
    intro a b hab <;>
    first
      | exact h a b hab
      | (rcases hab with hab | ⟨ha2, hb2⟩
         · exact h a b hab
         · rw [hb2]
           exact hlt)

theorem track_speed_speeds_le (now speed : ℚ) (loc : Loc) (rot : Rot) (s : TMState)
    (h : ∀ p ∈ s.violation_durations, p.2 ≤ s.max_speed) :
    ∀ p ∈ (track_speed now speed loc rot s).violation_durations,
      p.2 ≤ s.max_speed := by
  unfold track_speed
  split_ifs with ha
  · set t : TMState := { s with
      current_speed := speed
      max_speed_during_run := pymax s.max_speed_during_run speed
      min_speed_during_run := minW s.min_speed_during_run speed } with ht
    have hbase : ∀ p ∈ t.violation_durations, p.2 ≤ t.max_speed := by simpa [ht] using h
    have h2 := violation_step_speeds_le now speed loc rot t hbase
    rw [(telemetry_step_fields now speed loc rot _).2.2.1]
    simpa [ht] using h2
  · exact h

theorem run_ticks_window_inv (ticks : List Tick) (s : TMState)
    (h : s.violation_count = s.violation_durations.length + windowOpen s) :
    (run_ticks ticks s).violation_count =
      (run_ticks ticks s).violation_durations.length +
        windowOpen (run_ticks ticks s) := by
  induction ticks generalizing s with
  | nil => exact h
  | cons t ts ih =>
    rw [run_ticks, List.foldl_cons]
    exact ih _ (track_speed_window_inv t.now t.speed t.loc t.rot s h)

theorem run_ticks_max_speed (ticks : List Tick) (s : TMState) :
    (run_ticks ticks s).max_speed = s.max_speed := by
  induction ticks generalizing s with
  | nil => rfl
  | cons t ts ih =>
    rw [run_ticks, List.foldl_cons]
    rw [show (List.foldl (fun st t => track_speed t.now t.speed t.loc t.rot st) (track_speed t.now t.speed t.loc t.rot s) ts) = run_ticks ts (track_speed t.now t.speed t.loc t.rot s) from rfl]
    rw [ih, track_speed_max_speed]

theorem run_ticks_speeds_le (ticks : List Tick) (s : TMState)
    (h : ∀ p ∈ s.violation_durations, p.2 ≤ s.max_speed) :
    ∀ p ∈ (run_ticks ticks s).violation_durations, p.2 ≤ s.max_speed := by
  induction ticks generalizing s with
  | nil => exact h
  | cons t ts ih =>
    rw [run_ticks, List.foldl_cons]
    have hstep := track_speed_speeds_le t.now t.speed t.loc t.rot s h
    have hms := track_speed_max_speed t.now t.speed t.loc t.rot s
    have := ih (track_speed t.now t.speed t.loc t.rot s) (by rw [hms]; exact hstep)
    rw [hms] at this
    exact this

theorem end_trial_fields (now : ℚ) (s : TMState) :
    (end_trial now s).violation_count = s.violation_count ∧
    (end_trial now s).violation_start = s.violation_start ∧
    (end_trial now s).violation_durations = s.violation_durations ∧
    (end_trial now s).max_speed = s.max_speed := by
  unfold end_trial calculate_results
  simp

theorem end_trial_trial_results (now : ℚ) (s : TMState) :
    (end_trial now s).trial_results = some
      { trial_duration := now - s.start_time
        avg_speed :=
          if s.violation_durations.isEmpty then 0
          else (s.violation_durations.map Prod.snd).sum / (s.violation_durations.length : ℚ)
        avg_violation_duration :=
          if s.violation_durations.isEmpty then 0
          else (s.violation_durations.map Prod.fst).sum / (s.violation_durations.length : ℚ)
        violation_count := s.violation_count } := by
  unfold end_trial calculate_results
  simp

theorem save_user_name_trial_fields (name : String) (s : TMState) :
    TrialFieldsEq (save_user_name name s) s := by
  unfold save_user_name
  split_ifs <;> exact ⟨rfl, rfl, rfl, rfl, rfl, rfl, rfl⟩

theorem handle_text_input_trial_fields (k : Key) (s : TMState) :
    TrialFieldsEq (handle_text_input k s) s := by
  unfold handle_text_input
  rcases k with _ | _ | _ | u <;> split_ifs <;>
    exact ⟨rfl, rfl, rfl, rfl, rfl, rfl, rfl⟩

/-- Claim C7: a trial-lifecycle action requested in a state that forbids it
is silently ignored as a no-op — `start()` (Return) while not Armed and
`end()` (Space) while not Running leave the trial state (activity flag,
start time, trial code, violation counters, buffered telemetry) unchanged,
both in `handle_event` and in the held-key block of `game_loop`; no error is
raised (the handlers are total). -/
theorem invalid_transition_silent_noop (now : ℚ) (fresh_code : String) (s : TMState) :
    (s.start_screen = false → TrialFieldsEq (handle_event_keydown now fresh_code .enter s) s) ∧
    (s.trial_active = false → TrialFieldsEq (handle_event_keydown now fresh_code .space s) s) ∧
    (s.start_screen = false → s.display_results = false →
      game_loop_trial_keys false true false now fresh_code s = s) ∧
    (s.trial_active = false → game_loop_trial_keys false false true now fresh_code s = s) := by
  refine ⟨?_, ?_, ?_, ?_⟩
  · intro hs
    unfold handle_event_keydown
    by_cases hd : s.display_results
    · simp only [hd, if_true]
      exact ⟨rfl, rfl, rfl, rfl, rfl, rfl, rfl⟩
    · simp only [hd, if_false, hs, if_neg Bool.false_ne_true]
      exact handle_text_input_trial_fields .enter s
  · intro ht
    unfold handle_event_keydown
    simp only [ht, if_neg Bool.false_ne_true]
    exact handle_text_input_trial_fields .space s
  · intro hs hd
    unfold game_loop_trial_keys start_trial
    simp [hs, hd]
  · intro ht
    unfold game_loop_trial_keys start_trial
    simp [ht]

/-- Claim C8: `dismissResults()` (Return while the results screen is up) is
idempotent from the Finished state: the first call only clears
`display_results` (Finished to Idle) and a second consecutive call is a
complete no-op that neither starts nor arms a new trial. -/
theorem dismiss_results_idempotent (n1 n2 : ℚ) (code1 code2 : String) (s : TMState)
    (hd : s.display_results = true) (hs : s.start_screen = false)
    (ha : s.active_input = false) (ht : s.trial_active = false) :
    handle_event_keydown n1 code1 .enter s = { s with display_results := false } ∧
    handle_event_keydown n2 code2 .enter (handle_event_keydown n1 code1 .enter s) =
      handle_event_keydown n1 code1 .enter s ∧
    (handle_event_keydown n2 code2 .enter (handle_event_keydown n1 code1 .enter s)).trial_active
      = false ∧
    (handle_event_keydown n2 code2 .enter (handle_event_keydown n1 code1 .enter s)).start_screen
      = false := by
  have h1 : handle_event_keydown n1 code1 .enter s = { s with display_results := false } := by
    unfold handle_event_keydown
    simp [hd]
  have h2 : handle_event_keydown n2 code2 .enter (handle_event_keydown n1 code1 .enter s) =
      handle_event_keydown n1 code1 .enter s := by
    rw [h1]
    unfold handle_event_keydown handle_text_input
    simp [hs, ha]
  refine ⟨h1, h2, ?_, ?_⟩
  · rw [h2, h1]
    exact ht
  · rw [h2, h1]
    exact hs

theorem violation_step_at_limit (now : ℚ) (loc : Loc) (rot : Rot) (t : TMState) :
    (violation_step now t.max_speed loc rot t).violation_count = t.violation_count ∧
    (violation_step now t.max_speed loc rot t).violation_start = none ∧
    (∀ v, t.violation_start = some v →
      (violation_step now t.max_speed loc rot t).violation_durations =
        t.violation_durations ++ [(now - v, t.max_speed)]) ∧
    (t.violation_start = none →
      (violation_step now t.max_speed loc rot t).violation_durations =
        t.violation_durations) := by
  unfold violation_step
  have hlt : ¬ (t.max_speed < t.max_speed) := lt_irrefl _
  rcases hv : t.violation_start with _ | v <;> simp [hlt, hv]

/-- Claim C5: on a Running tick whose sampled speed equals `speed_limit`
exactly, no new ViolationWindow is opened and `violation_count` is not
incremented (the violation test is strict greater-than); if a window is open
at that tick it is closed, appending its `(duration, speed)` entry. -/
theorem track_speed_at_limit (now : ℚ) (loc : Loc) (rot : Rot) (s : TMState)
    (h : s.trial_active = true) :
    (track_speed now s.max_speed loc rot s).violation_count = s.violation_count ∧
    (track_speed now s.max_speed loc rot s).violation_start = none ∧
    (∀ v, s.violation_start = some v →
      (track_speed now s.max_speed loc rot s).violation_durations =
        s.violation_durations ++ [(now - v, s.max_speed)]) ∧
    (s.violation_start = none →
      (track_speed now s.max_speed loc rot s).violation_durations =
        s.violation_durations) := by
  unfold track_speed
  rw [if_pos h]
  set t : TMState := { s with
      current_speed := s.max_speed
      max_speed_during_run := pymax s.max_speed_during_run s.max_speed
      min_speed_during_run := minW s.min_speed_during_run s.max_speed } with htdef
  have hts : t.max_speed = s.max_speed := rfl
  have hvl := violation_step_at_limit now loc rot t
  rw [hts] at hvl
  have h3 := telemetry_step_fields now s.max_speed loc rot
    (violation_step now s.max_speed loc rot t)
  refine ⟨?_, ?_, ?_, ?_⟩
  · rw [h3.1, hvl.1]
  · rw [h3.2.1, hvl.2.1]
  · intro v hv
    rw [h3.2.2.1, hvl.2.2.1 v hv]
  · intro hv
    rw [h3.2.2.1, hvl.2.2.2 hv]

/-- Claim C10: computing trial results with an empty violation list never
divides by zero — the empty case is guarded and both the reported average
speed and the reported average violation duration are exactly 0. -/
theorem calculate_results_empty_safe (s : TMState) (h : s.violation_durations = []) :
    (calculate_results s).trial_results = some
      { trial_duration := s.end_time - s.start_time
        avg_speed := 0
        avg_violation_duration := 0
        violation_count := s.violation_count } := by
  unfold calculate_results
  simp [h]

/-- Claim C4: for every raw axis value in [-1,1] and every damping > 0, the
throttle/brake response curve is well defined (the log10 argument
`-0.7*raw + 1.4` is positive) and, after the final clamp, produces an output
in [0,1] — including at the boundary inputs raw = -1 and raw = 1. -/
theorem pedal_curve_clamped (raw damping : ℝ)
    (h1 : -1 ≤ raw) (h2 : raw ≤ 1) (h3 : 0 < damping) :
    0 < -0.7 * raw + 1.4 ∧
    0 ≤ clamp01 (pedal_curve damping raw) ∧ clamp01 (pedal_curve damping raw) ≤ 1 := by
  unfold clamp01
  refine ⟨by nlinarith, le_max_left _ _, max_le (by norm_num) (min_le_left _ _)⟩

/-- Claim C1, amended: for every trial execution arm, start, ticks, end, the
final `violation_count` equals the number of closed ViolationWindows (the
length of `violation_durations`) PLUS one for a window still open when
`end()` fires (the count is incremented when a window opens, not when it
closes), and the trial summary reports exactly that count.  A window open at
`end()` contributes no `violation_durations` entry, but its increment of
`violation_count` is retained and `end()` leaves `violation_start` set. -/
theorem run_trial_window_count (s : TMState) (t0 : ℚ) (fresh_code : String)
    (ticks : List Tick) (te : ℚ) :
    (run_trial t0 fresh_code ticks te s).violation_count =
      (run_trial t0 fresh_code ticks te s).violation_durations.length +
        windowOpen (run_trial t0 fresh_code ticks te s) ∧
    (run_trial t0 fresh_code ticks te s).trial_results.map TrialResults.violation_count =
      some (run_trial t0 fresh_code ticks te s).violation_count := by
  unfold run_trial
  set m : TMState := run_ticks ticks (initiate_trial t0 fresh_code (start_trial s)) with hm
  have hbase : (initiate_trial t0 fresh_code (start_trial s)).violation_count =
      (initiate_trial t0 fresh_code (start_trial s)).violation_durations.length +
        windowOpen (initiate_trial t0 fresh_code (start_trial s)) := by
    simp [initiate_trial, start_trial, windowOpen]
  have hmid : m.violation_count = m.violation_durations.length + windowOpen m :=
    run_ticks_window_inv ticks _ hbase
  have hend := end_trial_fields te m
  have hres := end_trial_trial_results te m
  constructor
  · rw [hend.1, hend.2.2.1, windowOpen_eq_of hend.2.1]
    exact hmid
  · rw [hres, hend.1]
    simp

/-- Claim C9: every `(duration, speed)` pair recorded in
`violation_durations` over a whole trial carries the speed measured at the
closing tick, which is at or below `speed_limit`; consequently the average
speed in the trial summary is a mean of at-or-below-limit speeds and is
itself at most `speed_limit`. -/
theorem run_trial_speeds_le (s : TMState) (t0 : ℚ) (fresh_code : String)
    (ticks : List Tick) (te : ℚ) :
    (∀ p ∈ (run_trial t0 fresh_code ticks te s).violation_durations, p.2 ≤ s.max_speed) ∧
    (0 ≤ s.max_speed → ∀ r, (run_trial t0 fresh_code ticks te s).trial_results = some r →
      r.avg_speed ≤ s.max_speed) := by
  unfold run_trial
  set m : TMState := run_ticks ticks (initiate_trial t0 fresh_code (start_trial s)) with hm
  have hbase : ∀ p ∈ (initiate_trial t0 fresh_code (start_trial s)).violation_durations,
      p.2 ≤ (initiate_trial t0 fresh_code (start_trial s)).max_speed := by
    simp [initiate_trial, start_trial]
  have hmax : (initiate_trial t0 fresh_code (start_trial s)).max_speed = s.max_speed := rfl
  have hmid : ∀ p ∈ m.violation_durations, p.2 ≤ s.max_speed := by
    rw [hm]
    intro p hp
    have := run_ticks_speeds_le ticks (initiate_trial t0 fresh_code (start_trial s)) hbase p hp
    rwa [hmax] at this
  have hend := end_trial_fields te m
  have hres := end_trial_trial_results te m
  constructor
  · rw [hend.2.2.1]
    exact hmid
  · intro hnn r hr
    rw [hres] at hr
    have havg : r.avg_speed =
        if m.violation_durations.isEmpty then 0
        else (m.violation_durations.map Prod.snd).sum / (m.violation_durations.length : ℚ) := by
      rw [← Option.some_inj.mp hr]
    rw [havg]
    by_cases hemp : m.violation_durations.isEmpty
    · simpa [hemp] using hnn
    · rw [if_neg hemp]
      have hlen : 0 < m.violation_durations.length := by
        rcases hl : m.violation_durations with _ | ⟨p, ps⟩
        · rw [hl] at hemp
          simp at hemp
        · simp [hl]
      have hlenq : (0:ℚ) < (m.violation_durations.length : ℚ) := by exact_mod_cast hlen
      rw [div_le_iff₀ hlenq]
      have hb : ∀ x ∈ m.violation_durations.map Prod.snd, x ≤ s.max_speed := by
        intro x hx
        rcases List.mem_map.mp hx with ⟨p, hp, hpx⟩
        rw [← hpx]
        exact hmid p hp
      have hsum := List.sum_le_card_nsmul (m.violation_durations.map Prod.snd) s.max_speed hb
      rw [List.length_map] at hsum
      calc (m.violation_durations.map Prod.snd).sum
          ≤ m.violation_durations.length • s.max_speed := hsum
        _ = (m.violation_durations.length : ℚ) * s.max_speed := by
            rw [nsmul_eq_mul]
        _ = s.max_speed * (m.violation_durations.length : ℚ) := by ring

theorem le_pymax_left (a b : ℚ) : a ≤ pymax a b := by
  unfold pymax
  split_ifs with h
  · exact le_refl a
  · exact le_of_not_le h

theorem parse_vehicle_keys_ranges (keys : Keys) (ms cache : ℚ) (c : VehicleControl ℚ) :
    -(7/10) ≤ (parse_vehicle_keys keys ms cache c).2.steer ∧
    (parse_vehicle_keys keys ms cache c).2.steer ≤ 7/10 ∧
    ((parse_vehicle_keys keys ms cache c).2.throttle = 0 ∨
      (parse_vehicle_keys keys ms cache c).2.throttle = 1) ∧
    ((parse_vehicle_keys keys ms cache c).2.brake = 0 ∨
      (parse_vehicle_keys keys ms cache c).2.brake = 1) := by
  unfold parse_vehicle_keys
  dsimp only
  set cache1 : ℚ :=
    if keys.left || keys.a then cache - 5/10000 * ms
    else if keys.right || keys.d then cache + 5/10000 * ms
    else 0 with hc1
  have hlo : -(7/10) ≤ pymin (7/10) (pymax (-(7/10)) cache1) :=
    le_pymin (by norm_num) (le_pymax_left _ _)
  have hhi : pymin (7/10) (pymax (-(7/10)) cache1) ≤ 7/10 := pymin_le_left _ _
  have hb := pyRound_one_bound hlo hhi
  refine ⟨hb.1, hb.2, ?_, ?_⟩
  · split_ifs <;> simp
  · split_ifs <;> simp

theorem parse_vehicle_wheel_pedals_clamped (sd td bd : ℝ) (i j k : ℕ)
    (js : ℕ → ℝ) (c : VehicleControl ℝ) :
    0 ≤ (parse_vehicle_wheel sd td bd (some i) (some j) (some k) js c).throttle ∧
    (parse_vehicle_wheel sd td bd (some i) (some j) (some k) js c).throttle ≤ 1 ∧
    0 ≤ (parse_vehicle_wheel sd td bd (some i) (some j) (some k) js c).brake ∧
    (parse_vehicle_wheel sd td bd (some i) (some j) (some k) js c).brake ≤ 1 := by
  unfold parse_vehicle_wheel clamp01
  exact ⟨le_max_left _ _, max_le (by norm_num) (min_le_left _ _),
    le_max_left _ _, max_le (by norm_num) (min_le_left _ _)⟩

/-- Claim C2, counterexample: in analog mode with steering damping 1 (a
positive damping) and raw steering axis value 1 (inside the [-1,1] axis
range), the steer command handed to the host is `tan 1.1 > 1`; steer is not
clamped to [-1,1] before being handed to the host. -/
theorem analog_steer_can_exceed_one :
    1 < (parse_vehicle_wheel 1 1 1 (some 0) (some 1) (some 2)
          (fun i => if i = 0 then 1 else 0)
          ⟨0, 0, 0, 0, false, false, false⟩).steer := by
  have hpi : (1.1:ℝ) < Real.pi / 2 := by
    have := Real.pi_gt_three
    linarith
  have ht : (1.1:ℝ) < Real.tan 1.1 := Real.lt_tan (by norm_num) hpi
  have : (parse_vehicle_wheel 1 1 1 (some 0) (some 1) (some 2)
      (fun i => if i = 0 then 1 else 0)
      ⟨0, 0, 0, 0, false, false, false⟩).steer = Real.tan 1.1 := by
    unfold parse_vehicle_wheel steer_curve
    norm_num
  rw [this]
  linarith

/-- Claim C2, amended: throttle and brake are always clamped to [0,1]
before being handed to the host in both modes (in digital mode they are the
constants 0 or 1), and digital steer is clamped to [-0.7,0.7] ⊆ [-1,1]; but
analog steer `damping * tan(1.1 * raw)` is handed over unclamped and can
leave [-1,1] (see the counterexample). -/
theorem actuation_ranges_amended :
    (∀ (keys : Keys) (ms cache : ℚ) (c : VehicleControl ℚ),
      -(7/10) ≤ (parse_vehicle_keys keys ms cache c).2.steer ∧
      (parse_vehicle_keys keys ms cache c).2.steer ≤ 7/10 ∧
      ((parse_vehicle_keys keys ms cache c).2.throttle = 0 ∨
        (parse_vehicle_keys keys ms cache c).2.throttle = 1) ∧
      ((parse_vehicle_keys keys ms cache c).2.brake = 0 ∨
        (parse_vehicle_keys keys ms cache c).2.brake = 1)) ∧
    (∀ (sd td bd : ℝ) (i j k : ℕ) (js : ℕ → ℝ) (c : VehicleControl ℝ),
      0 ≤ (parse_vehicle_wheel sd td bd (some i) (some j) (some k) js c).throttle ∧
      (parse_vehicle_wheel sd td bd (some i) (some j) (some k) js c).throttle ≤ 1 ∧
      0 ≤ (parse_vehicle_wheel sd td bd (some i) (some j) (some k) js c).brake ∧
      (parse_vehicle_wheel sd td bd (some i) (some j) (some k) js c).brake ≤ 1) :=
  ⟨fun keys ms cache c => parse_vehicle_keys_ranges keys ms cache c,
   fun sd td bd i j k js c => parse_vehicle_wheel_pedals_clamped sd td bd i j k js c⟩

/-- Claim C3, amended: the gear toggle and the high-beam light toggle are
indeed edge-triggered — the per-tick polled update never changes `gear` or
the high-beam bit, and the analog wheel parse preserves `gear` and
`hand_brake` — but `hand_brake` is re-assigned on every digital per-tick
update to the held state of the SPACE key, so a hand-brake toggle fired by a
press event does not survive per-tick polling. -/
theorem discrete_toggles_amended :
    (∀ (keys : Keys) (ms cache : ℚ) (c : VehicleControl ℚ) (l : LightState),
      (per_tick_digital keys ms cache c l).2.1.gear = c.gear ∧
      (per_tick_digital keys ms cache c l).2.2.highbeam = l.highbeam ∧
      (per_tick_digital keys ms cache c l).2.1.hand_brake = keys.space) ∧
    (∀ (sd td bd : ℝ) (si ti bi : Option ℕ) (js : ℕ → ℝ) (c : VehicleControl ℝ),
      (parse_vehicle_wheel sd td bd si ti bi js c).gear = c.gear ∧
      (parse_vehicle_wheel sd td bd si ti bi js c).hand_brake = c.hand_brake) := by
  constructor
  · intro keys ms cache c l
    exact ⟨rfl, rfl, rfl⟩
  · intro sd td bd si ti bi js c
    rcases si with _ | i <;> rcases ti with _ | j <;> rcases bi with _ | k <;> exact ⟨rfl, rfl⟩

/-- Claim C3, counterexample: with the hand brake toggled on by a press
event, a subsequent per-tick update during which no key is held (in
particular, SPACE is not held and no new press event occurs) resets
`hand_brake` to false: the per-tick key polling overwrites the hand-brake
toggle state every tick. -/
theorem handbrake_polled_every_tick_cex :
    vc_handbrake.hand_brake = true ∧
    (per_tick_digital keys_none 16 0 vc_handbrake lights0).2.1.hand_brake = false :=
  ⟨rfl, rfl⟩

/-- Claim C6: in digital fallback mode, starting from a zero steer
accumulator, holding only the left-turn key for exactly 3 ticks of 16 ms
each yields a steer accumulator of `-3*5e-4*16 = -0.024` (the clamp to
[-0.7,0.7] is a no-op), and rounding to 1 decimal digit makes the emitted
steer value 0.0. -/
theorem digital_three_tick_left_steer :
    (parse_vehicle_keys keys_left_only 16
      (parse_vehicle_keys keys_left_only 16
        (parse_vehicle_keys keys_left_only 16 0 vc0).1
        (parse_vehicle_keys keys_left_only 16 0 vc0).2).1
      (parse_vehicle_keys keys_left_only 16
        (parse_vehicle_keys keys_left_only 16 0 vc0).1
        (parse_vehicle_keys keys_left_only 16 0 vc0).2).2).1 = -(3 * (5/10000 * 16)) ∧
    (parse_vehicle_keys keys_left_only 16
      (parse_vehicle_keys keys_left_only 16
        (parse_vehicle_keys keys_left_only 16 0 vc0).1
        (parse_vehicle_keys keys_left_only 16 0 vc0).2).1
      (parse_vehicle_keys keys_left_only 16
        (parse_vehicle_keys keys_left_only 16 0 vc0).1
        (parse_vehicle_keys keys_left_only 16 0 vc0).2).2).1 = -(24/1000) ∧
    (parse_vehicle_keys keys_left_only 16
      (parse_vehicle_keys keys_left_only 16
        (parse_vehicle_keys keys_left_only 16 0 vc0).1
        (parse_vehicle_keys keys_left_only 16 0 vc0).2).1
      (parse_vehicle_keys keys_left_only 16
        (parse_vehicle_keys keys_left_only 16 0 vc0).1
        (parse_vehicle_keys keys_left_only 16 0 vc0).2).2).2.steer = 0 := by
  norm_num [parse_vehicle_keys, keys_left_only, vc0, pymin, pymax, pyRound, roundHalfEven]

/-- Claim C1, counterexample: a trial with a single above-limit tick ended
while its window is still open reports `violation_count = 1` in the summary
even though zero windows were closed (`violation_durations` is empty), and
the window is still recorded as open after `end()` — refuting the claim that
the summary count equals the number of closed windows and that the open
window contributes no count increment. -/
theorem end_trial_open_window_counted_cex :
    cex_trial.trial_results.map TrialResults.violation_count = some 1 ∧
    cex_trial.violation_durations = [] ∧
    cex_trial.violation_start = some 1 := by
  norm_num [cex_trial, base_state, run_trial, run_ticks, track_speed, telemetry_step,
    violation_step, initiate_trial, start_trial, end_trial, calculate_results, init_state,
    minW, pymax, pymin, event_row, run_row, totals_row, pyRound, roundHalfEven, pyInt]

/-- Witness for claim C4 at raw = 0, damping = 1. -/
theorem pedal_curve_clamped_witness :
    (-1 ≤ (0:ℝ)) ∧ ((0:ℝ) ≤ 1) ∧ (0 < (1:ℝ)) ∧
    (0 < -0.7 * (0:ℝ) + 1.4 ∧
      0 ≤ clamp01 (pedal_curve 1 0) ∧ clamp01 (pedal_curve 1 0) ≤ 1) :=
  ⟨by norm_num, by norm_num, by norm_num,
    pedal_curve_clamped 0 1 (by norm_num) (by norm_num) (by norm_num)⟩

/-- Witness for claim C5: a running trial with a window opened at time 0,
ticked at time 2 with speed exactly at the limit. -/
theorem track_speed_at_limit_witness :
    (track_speed 2 running_open_state.max_speed ⟨0, 0, 0⟩ ⟨0, 0, 0⟩
        running_open_state).violation_count = running_open_state.violation_count ∧
    (track_speed 2 running_open_state.max_speed ⟨0, 0, 0⟩ ⟨0, 0, 0⟩
        running_open_state).violation_start = none ∧
    (track_speed 2 running_open_state.max_speed ⟨0, 0, 0⟩ ⟨0, 0, 0⟩
        running_open_state).violation_durations =
      running_open_state.violation_durations ++ [(2 - 0, running_open_state.max_speed)] := by
  have h := track_speed_at_limit 2 ⟨0, 0, 0⟩ ⟨0, 0, 0⟩ running_open_state rfl
  exact ⟨h.1, h.2.1, h.2.2.1 0 rfl⟩

/-- Witness for claim C7 at the Idle session state. -/
theorem invalid_transition_silent_noop_witness :
    TrialFieldsEq (handle_event_keydown 1 "x" .enter base_state) base_state ∧
    TrialFieldsEq (handle_event_keydown 1 "x" .space base_state) base_state ∧
    game_loop_trial_keys false true false 1 "x" base_state = base_state ∧
    game_loop_trial_keys false false true 1 "x" base_state = base_state := by
  have h := invalid_transition_silent_noop 1 "x" base_state
  exact ⟨h.1 rfl, h.2.1 rfl, h.2.2.1 rfl rfl, h.2.2.2 rfl⟩

/-- Witness for claim C8 at the canonical Finished state. -/
theorem dismiss_results_idempotent_witness :
    handle_event_keydown 1 "a" .enter finished_state =
      { finished_state with display_results := false } ∧
    handle_event_keydown 2 "b" .enter (handle_event_keydown 1 "a" .enter finished_state) =
      handle_event_keydown 1 "a" .enter finished_state ∧
    (handle_event_keydown 2 "b" .enter
      (handle_event_keydown 1 "a" .enter finished_state)).trial_active = false ∧
    (handle_event_keydown 2 "b" .enter
      (handle_event_keydown 1 "a" .enter finished_state)).start_screen = false :=
  dismiss_results_idempotent 1 2 "a" "b" finished_state rfl rfl rfl rfl

/-- Witness for claim C9: a trial with one violation window closed at
40 mph under the 45 mph limit; the averaged speed 40 is at most 45. -/
theorem run_trial_speeds_le_witness :
    closed_window_trial.trial_results = some ⟨3, 40, 1, 1⟩ ∧ (40:ℚ) ≤ 45 := by
  have heval : closed_window_trial.trial_results = some ⟨3, 40, 1, 1⟩ := by
    norm_num [closed_window_trial, base_state, run_trial, run_ticks, track_speed,
      telemetry_step, violation_step, initiate_trial, start_trial, end_trial,
      calculate_results, init_state, minW, pymax, pymin, event_row, run_row, totals_row,
      pyRound, roundHalfEven, pyInt]
  refine ⟨heval, ?_⟩
  exact (run_trial_speeds_le base_state 0 "T"
    [⟨1, 50, ⟨0, 0, 0⟩, ⟨0, 0, 0⟩⟩, ⟨2, 40, ⟨0, 0, 0⟩, ⟨0, 0, 0⟩⟩] 3).2
    (by norm_num [base_state, init_state]) ⟨3, 40, 1, 1⟩ heval

/-- Witness for claim C10 at a fresh session state (empty violation
list). -/
theorem calculate_results_empty_safe_witness :
    (calculate_results base_state).trial_results =
      some ⟨base_state.end_time - base_state.start_time, 0, 0, base_state.violation_count⟩ :=
  calculate_results_empty_safe base_state rfl
